import Mathlib

/-!
Shallow embedding of the `async-gate` crate (`src/lib.rs`).

The crate wraps a `tokio::sync::watch` channel holding a two-valued
`Gateway`.  We embed the shared channel cell as an explicit record
`SysState`: the current `Gateway` value, the watch channel's change
version counter, whether the sole sender (`Lever`) is still alive, and
how many receiver clones (`Gate`) are alive.  Each Rust method becomes a
pure function over `SysState`; the async waits `Gate::raised` /
`Gate::lowered` become poll functions returning `none` while the wait
would stay pending, mirroring `watch::Receiver::wait_for`: the predicate
is checked against the current value first (so a matching frozen value
resolves `Ok` even after the sender dropped), and the wait errors only
when the sender is gone while the predicate is unmet.
-/

/-- `Gateway` enum from the source: the two-valued state. -/
inductive Gateway where
  | Raised
  | Lowered
deriving DecidableEq, Repr

/-- `impl Not for Gateway`: total inversion. -/
def Gateway.not : Gateway → Gateway
  | Gateway.Raised => Gateway.Lowered
  | Gateway.Lowered => Gateway.Raised

/-- `impl Display for Gateway`: renders as `"Raised"` / `"Lowered"`. -/
def Gateway.to_string : Gateway → String
  | Gateway.Raised => "Raised"
  | Gateway.Lowered => "Lowered"

/-- `ParseGatewayError`: unit error of `FromStr`. -/
structure ParseGatewayError where
deriving DecidableEq, Repr

/-- `impl FromStr for Gateway`: matches the exact strings `"Raised"` and
`"Lowered"`, anything else is a parse error. -/
def Gateway.from_str (s : String) : Except ParseGatewayError Gateway :=
  if s = "Raised" then Except.ok Gateway.Raised
  else if s = "Lowered" then Except.ok Gateway.Lowered
  else Except.error ParseGatewayError.mk

/-- `BeforeGateDropped(Gateway)`: the gate was dropped but the last value
is still known. -/
structure BeforeGateDropped where
  state : Gateway
deriving DecidableEq, Repr

/-- `GateDropped`: mutation attempted after every `Gate` clone dropped. -/
structure GateDropped where
deriving DecidableEq, Repr

/-- `LeverDroppedWhileRaised`: error of `Gate::lowered`. -/
structure LeverDroppedWhileRaised where
deriving DecidableEq, Repr

/-- `LeverDroppedWhileLowered`: error of `Gate::raised`. -/
structure LeverDroppedWhileLowered where
deriving DecidableEq, Repr

/-- The shared watch-channel cell: current value, change-version counter,
liveness of the single sender (`Lever`) and the count of live receiver
clones (`Gate`). -/
structure SysState where
  gateway : Gateway
  version : Nat
  leverAlive : Bool
  gateCount : Nat
deriving DecidableEq, Repr

/-- `Lever::gate_was_dropped` = `watch::Sender::is_closed`: true exactly
when no receiver clone remains. -/
def Lever.gate_was_dropped (s : SysState) : Bool :=
  s.gateCount == 0

/-- The `send_if_modified` closure of `Lever::raise`: leaves the cell
untouched (returning `false`, so no version bump and no wakeup) when the
value is already `Raised`, otherwise writes `Raised`, bumps the version
and returns `true` (waking all registered waiters). -/
def send_if_modified_raise (s : SysState) : Bool × SysState :=
  match s.gateway with
  | Gateway.Raised => (false, s)
  | Gateway.Lowered =>
    (true, { s with gateway := Gateway.Raised, version := s.version + 1 })

/-- The `send_if_modified` closure of `Lever::lower`, symmetric. -/
def send_if_modified_lower (s : SysState) : Bool × SysState :=
  match s.gateway with
  | Gateway.Lowered => (false, s)
  | Gateway.Raised =>
    (true, { s with gateway := Gateway.Lowered, version := s.version + 1 })

/-- `Lever::raise`: errors with `GateDropped` when the receiver side is
closed, otherwise runs `send_if_modified` and returns `Ok(())`. -/
def Lever.raise (s : SysState) : Except GateDropped Unit × SysState :=
  if Lever.gate_was_dropped s then (Except.error GateDropped.mk, s)
  else (Except.ok (), (send_if_modified_raise s).2)

/-- `Lever::lower`, symmetric to `Lever.raise`. -/
def Lever.lower (s : SysState) : Except GateDropped Unit × SysState :=
  if Lever.gate_was_dropped s then (Except.error GateDropped.mk, s)
  else (Except.ok (), (send_if_modified_lower s).2)

/-- `Lever::is_raised`: borrows the current value; errors with
`BeforeGateDropped(value)` when the receiver side is closed, otherwise
returns whether the value matches `Raised`. -/
def Lever.is_raised (s : SysState) : Except BeforeGateDropped Bool :=
  if Lever.gate_was_dropped s then Except.error (BeforeGateDropped.mk s.gateway)
  else Except.ok (s.gateway == Gateway.Raised)

/-- `Lever::is_lowered`, symmetric to `Lever.is_raised`. -/
def Lever.is_lowered (s : SysState) : Except BeforeGateDropped Bool :=
  if Lever.gate_was_dropped s then Except.error (BeforeGateDropped.mk s.gateway)
  else Except.ok (s.gateway == Gateway.Lowered)

/-- `Gate::is_raised`: plain read of the current value. -/
def Gate.is_raised (s : SysState) : Bool :=
  s.gateway == Gateway.Raised

/-- `Gate::is_lowered`: plain read of the current value. -/
def Gate.is_lowered (s : SysState) : Bool :=
  s.gateway == Gateway.Lowered

/-- `Gate::lever_was_dropped` = `watch::Receiver::has_changed().is_err()`:
true exactly when the sender has been dropped. -/
def Gate.lever_was_dropped (s : SysState) : Bool :=
  !s.leverAlive

/-- One poll of `Gate::raised` (`wait_for(|g| matches Raised)`): `some`
is a resolved future, `none` a pending one.  The predicate is checked on
the current value first, so a matching value resolves `Ok` even when the
sender is gone; the error arises only when the sender is gone and the
value does not match. -/
def Gate.raised_poll (s : SysState) :
    Option (Except LeverDroppedWhileLowered Unit) :=
  if s.gateway = Gateway.Raised then some (Except.ok ())
  else if s.leverAlive then none
  else some (Except.error LeverDroppedWhileLowered.mk)

/-- One poll of `Gate::lowered`, symmetric to `Gate.raised_poll`. -/
def Gate.lowered_poll (s : SysState) :
    Option (Except LeverDroppedWhileRaised Unit) :=
  if s.gateway = Gateway.Lowered then some (Except.ok ())
  else if s.leverAlive then none
  else some (Except.error LeverDroppedWhileRaised.mk)

/-- `new(initial)`: one fresh cell shared by exactly one `Lever` and one
`Gate`. -/
def new (initial : Gateway) : SysState :=
  { gateway := initial, version := 0, leverAlive := true, gateCount := 1 }

/-- `new_raised()`. -/
def new_raised : SysState :=
  new Gateway.Raised

/-- `new_lowered()`. -/
def new_lowered : SysState :=
  new Gateway.Lowered

/-- The events that can act on the shared cell over its lifetime:
`Lever` mutations (which only exist while the lever handle is alive),
cloning a `Gate`, dropping one `Gate` clone, and dropping the `Lever`. -/
inductive Op where
  | opRaise
  | opLower
  | cloneGate
  | dropGate
  | dropLever
deriving DecidableEq, Repr

/-- One lifecycle step of the shared cell. -/
def step (s : SysState) : Op → SysState
  | Op.opRaise => if s.leverAlive then (Lever.raise s).2 else s
  | Op.opLower => if s.leverAlive then (Lever.lower s).2 else s
  | Op.cloneGate => if s.gateCount == 0 then s else { s with gateCount := s.gateCount + 1 }
  | Op.dropGate => { s with gateCount := s.gateCount - 1 }
  | Op.dropLever => { s with leverAlive := false }

/-- A whole sequence of lifecycle steps. -/
def run (s : SysState) (ops : List Op) : SysState :=
  ops.foldl step s

/-- Waking on a `send_if_modified` that returned `false` never happens;
helper: destructing a state. -/
theorem send_if_modified_raise_false (s : SysState)
    (h : s.gateway = Gateway.Raised) : send_if_modified_raise s = (false, s) := by
  simp [send_if_modified_raise, h]

/-- Helper: a no-op `lower` on an already lowered state. -/
theorem send_if_modified_lower_false (s : SysState)
    (h : s.gateway = Gateway.Lowered) : send_if_modified_lower s = (false, s) := by
  simp [send_if_modified_lower, h]

/-- C1: for every `Gate` wait, `raised()` fails with
`LeverDroppedWhileLowered` (and `lowered()` with `LeverDroppedWhileRaised`)
exactly when the `Lever` is gone while the awaited value is still unmet;
when the frozen final value already satisfies the awaited condition, the
wait resolves `Ok` even though the `Lever` is gone. -/
theorem gate_wait_fails_only_on_wrong_side (s : SysState) :
    (Gate.raised_poll s = some (Except.error LeverDroppedWhileLowered.mk) ↔
      s.leverAlive = false ∧ s.gateway ≠ Gateway.Raised) ∧
    (Gate.lowered_poll s = some (Except.error LeverDroppedWhileRaised.mk) ↔
      s.leverAlive = false ∧ s.gateway ≠ Gateway.Lowered) ∧
    (s.leverAlive = false → s.gateway = Gateway.Raised →
      Gate.raised_poll s = some (Except.ok ())) ∧
    (s.leverAlive = false → s.gateway = Gateway.Lowered →
      Gate.lowered_poll s = some (Except.ok ())) := by
  rcases s with ⟨g, v, la, gc⟩
  cases g <;> cases la <;>
    simp [Gate.raised_poll, Gate.lowered_poll]

/-- Witness for C1 at a concrete frozen state: the lever dropped while
the gate was still lowered, so `raised()` fails. -/
theorem gate_wait_fails_only_on_wrong_side_witness :
    Gate.raised_poll
        { gateway := Gateway.Lowered, version := 3, leverAlive := false,
          gateCount := 1 } =
      some (Except.error LeverDroppedWhileLowered.mk) :=
  (gate_wait_fails_only_on_wrong_side
      { gateway := Gateway.Lowered, version := 3, leverAlive := false,
        gateCount := 1 }).1.mpr (by decide)

/-- C2: `Lever::raise` / `Lever::lower` fail with `GateDropped` exactly
when every `Gate` clone has dropped; on that error the shared state is
left unchanged (so the `Lever` remains usable), and on success the state
holds the target value. -/
theorem lever_mutation_err_iff_gate_dropped (s : SysState) :
    ((Lever.raise s).1 = Except.error GateDropped.mk ↔
      Lever.gate_was_dropped s = true) ∧
    ((Lever.lower s).1 = Except.error GateDropped.mk ↔
      Lever.gate_was_dropped s = true) ∧
    (Lever.gate_was_dropped s = true →
      (Lever.raise s).2 = s ∧ (Lever.lower s).2 = s) ∧
    (Lever.gate_was_dropped s = false →
      (Lever.raise s).1 = Except.ok () ∧
      ((Lever.raise s).2).gateway = Gateway.Raised ∧
      (Lever.lower s).1 = Except.ok () ∧
      ((Lever.lower s).2).gateway = Gateway.Lowered) := by
  rcases s with ⟨g, v, la, gc⟩
  cases g <;> cases gc <;>
    simp [Lever.raise, Lever.lower, Lever.gate_was_dropped,
      send_if_modified_raise, send_if_modified_lower]

/-- Witness for C2: with every gate clone gone, `raise` errors and the
state is untouched; with one clone alive, `raise` succeeds and the state
becomes `Raised`. -/
theorem lever_mutation_err_iff_gate_dropped_witness :
    (Lever.raise
        { gateway := Gateway.Lowered, version := 0, leverAlive := true,
          gateCount := 0 }).1 = Except.error GateDropped.mk :=
  (lever_mutation_err_iff_gate_dropped
      { gateway := Gateway.Lowered, version := 0, leverAlive := true,
        gateCount := 0 }).1.mpr (by decide)

/-- C3: `Lever::is_raised` / `Lever::is_lowered` read the current value
while a `Gate` clone is alive, and fail with `BeforeGateDropped(frozen)`
exactly when the whole observer side has dropped. -/
theorem lever_query_reads_or_frozen_err (s : SysState) :
    (Lever.gate_was_dropped s = false →
      Lever.is_raised s = Except.ok (s.gateway == Gateway.Raised) ∧
      Lever.is_lowered s = Except.ok (s.gateway == Gateway.Lowered)) ∧
    (Lever.gate_was_dropped s = true →
      Lever.is_raised s = Except.error (BeforeGateDropped.mk s.gateway) ∧
      Lever.is_lowered s = Except.error (BeforeGateDropped.mk s.gateway)) := by
  rcases s with ⟨g, v, la, gc⟩
  cases gc <;>
    simp [Lever.is_raised, Lever.is_lowered, Lever.gate_was_dropped]

/-- Witness for C3 at concrete states on both sides of the split. -/
theorem lever_query_reads_or_frozen_err_witness :
    Lever.is_raised
        { gateway := Gateway.Raised, version := 2, leverAlive := true,
          gateCount := 0 } =
      Except.error (BeforeGateDropped.mk Gateway.Raised) :=
  ((lever_query_reads_or_frozen_err
      { gateway := Gateway.Raised, version := 2, leverAlive := true,
        gateCount := 0 }).2 (by decide)).1

/-- C4: for every initial state `S`, the pair built by `new S` (and by
`new_raised` / `new_lowered` for the respective `S`) reports
`is_raised() == true` and `is_lowered() == false` on both handles iff
`S = Raised`, and symmetrically for `Lowered`. -/
theorem fresh_pair_reports_initial_state (S : Gateway) :
    ((Lever.is_raised (new S) = Except.ok true ∧
      Lever.is_lowered (new S) = Except.ok false ∧
      Gate.is_raised (new S) = true ∧
      Gate.is_lowered (new S) = false) ↔ S = Gateway.Raised) ∧
    ((Lever.is_lowered (new S) = Except.ok true ∧
      Lever.is_raised (new S) = Except.ok false ∧
      Gate.is_lowered (new S) = true ∧
      Gate.is_raised (new S) = false) ↔ S = Gateway.Lowered) ∧
    new_raised = new Gateway.Raised ∧
    new_lowered = new Gateway.Lowered := by
  cases S <;>
    simp [new, new_raised, new_lowered, Lever.is_raised, Lever.is_lowered,
      Gate.is_raised, Gate.is_lowered, Lever.gate_was_dropped]

/-- Witness for C4 at `S = Raised`. -/
theorem fresh_pair_reports_initial_state_witness :
    Lever.is_raised (new Gateway.Raised) = Except.ok true ∧
    Lever.is_lowered (new Gateway.Raised) = Except.ok false ∧
    Gate.is_raised (new Gateway.Raised) = true ∧
    Gate.is_lowered (new Gateway.Raised) = false :=
  (fresh_pair_reports_initial_state Gateway.Raised).1.mpr rfl

/-- C5: calling `raise()` when already `Raised` (or `lower()` when
already `Lowered`) with the gate side alive is a no-op: the closure
returns `false` (so the watch channel bumps no version and wakes no
waiter) and the whole state, version counter included, is unchanged. -/
theorem redundant_mutation_is_noop (s : SysState)
    (halive : Lever.gate_was_dropped s = false) :
    (s.gateway = Gateway.Raised →
      send_if_modified_raise s = (false, s) ∧
      Lever.raise s = (Except.ok (), s)) ∧
    (s.gateway = Gateway.Lowered →
      send_if_modified_lower s = (false, s) ∧
      Lever.lower s = (Except.ok (), s)) := by
  refine ⟨fun h => ⟨send_if_modified_raise_false s h, ?_⟩,
    fun h => ⟨send_if_modified_lower_false s h, ?_⟩⟩ <;>
    simp [Lever.raise, Lever.lower, halive, send_if_modified_raise_false s,
      send_if_modified_lower_false s, h]

/-- Witness for C5: raising a fresh already-raised pair changes nothing
and reports no modification. -/
theorem redundant_mutation_is_noop_witness :
    send_if_modified_raise new_raised = (false, new_raised) ∧
    Lever.raise new_raised = (Except.ok (), new_raised) :=
  (redundant_mutation_is_noop new_raised (by decide)).1 rfl

/-- C6: `Gate::is_raised` / `Gate::is_lowered` are total boolean reads of
the current (possibly frozen) value, for every state — also after the
lever has dropped — and are each other's negation; being plain `Bool`
returning functions they never suspend and never error. -/
theorem gate_query_always_plain_read (s : SysState) :
    Gate.is_raised s = (s.gateway == Gateway.Raised) ∧
    Gate.is_lowered s = (s.gateway == Gateway.Lowered) ∧
    Gate.is_raised s = !Gate.is_lowered s := by
  rcases s with ⟨g, v, la, gc⟩
  cases g <;> simp [Gate.is_raised, Gate.is_lowered]

/-- Witness for C6 at a frozen state (lever dropped). -/
theorem gate_query_always_plain_read_witness :
    Gate.is_raised
        { gateway := Gateway.Lowered, version := 5, leverAlive := false,
          gateCount := 2 } =
      !Gate.is_lowered
        { gateway := Gateway.Lowered, version := 5, leverAlive := false,
          gateCount := 2 } :=
  (gate_query_always_plain_read
      { gateway := Gateway.Lowered, version := 5, leverAlive := false,
        gateCount := 2 }).2.2

/-- C7: a `raise()`/`lower()` that actually changes the value reports the
modification (`send_if_modified` returns `true`, which is what wakes
every waiter registered before the mutation), and in the post state every
wait that was pending beforehand polls to `Ok` — the new value is visible
to it.  A wait that begins when the value already matches polls `Ok` on
its very first poll, so it never registers and is never woken; a
subsequent matching mutation also reports no modification. -/
theorem changing_mutation_wakes_pending_waiters (s : SysState)
    (halive : Lever.gate_was_dropped s = false) :
    (Gate.raised_poll s = none →
      (send_if_modified_raise s).1 = true ∧
      Gate.raised_poll (Lever.raise s).2 = some (Except.ok ())) ∧
    (Gate.lowered_poll s = none →
      (send_if_modified_lower s).1 = true ∧
      Gate.lowered_poll (Lever.lower s).2 = some (Except.ok ())) ∧
    (Gate.is_raised s = true →
      Gate.raised_poll s = some (Except.ok ()) ∧
      (send_if_modified_raise s).1 = false) ∧
    (Gate.is_lowered s = true →
      Gate.lowered_poll s = some (Except.ok ()) ∧
      (send_if_modified_lower s).1 = false) := by
  rcases s with ⟨g, v, la, gc⟩
  cases g <;> cases la <;>
    simp_all [Gate.raised_poll, Gate.lowered_poll, Gate.is_raised,
      Gate.is_lowered, Lever.raise, Lever.lower, send_if_modified_raise,
      send_if_modified_lower]

/-- Witness for C7: on a fresh lowered pair, a pending `raised()` wait is
woken by `raise()` and then observes the new value. -/
theorem changing_mutation_wakes_pending_waiters_witness :
    (send_if_modified_raise new_lowered).1 = true ∧
    Gate.raised_poll (Lever.raise new_lowered).2 = some (Except.ok ()) :=
  (changing_mutation_wakes_pending_waiters new_lowered (by decide)).1 rfl

/-- Helper for C8: a single step never resurrects a dropped gate side. -/
theorem step_gate_dropped_mono (s : SysState) (op : Op)
    (h : Lever.gate_was_dropped s = true) :
    Lever.gate_was_dropped (step s op) = true := by
  rcases s with ⟨g, v, la, gc⟩
  simp only [Lever.gate_was_dropped, beq_iff_eq] at h
  cases op <;>
    simp_all [step, Lever.gate_was_dropped, Lever.raise, Lever.lower] <;>
    split <;> simp_all

/-- Helper for C8: a single step never resurrects a dropped lever. -/
theorem step_lever_dropped_mono (s : SysState) (op : Op)
    (h : Gate.lever_was_dropped s = true) :
    Gate.lever_was_dropped (step s op) = true := by
  rcases s with ⟨g, v, la, gc⟩
  simp only [Gate.lever_was_dropped, Bool.not_eq_true'] at h
  cases op <;>
    simp_all [step, Gate.lever_was_dropped, Lever.raise, Lever.lower,
      send_if_modified_raise, send_if_modified_lower] <;>
    split <;> simp_all

/-- Helper for C8: monotonicity over any sequence of steps. -/
theorem run_dropped_mono (ops : List Op) : ∀ s : SysState,
    (Lever.gate_was_dropped s = true →
      Lever.gate_was_dropped (run s ops) = true) ∧
    (Gate.lever_was_dropped s = true →
      Gate.lever_was_dropped (run s ops) = true) := by
  induction ops with
  | nil => exact fun s => ⟨id, id⟩
  | cons op rest ih =>
    intro s
    exact ⟨fun h => ((ih (step s op)).1 (step_gate_dropped_mono s op h)),
      fun h => ((ih (step s op)).2 (step_lever_dropped_mono s op h))⟩

/-- C8: the two closed flags are monotonic: once `gate_was_dropped` (resp.
`lever_was_dropped`) is true it stays true across every further sequence
of operations and drops — so each flag flips false to true at most once —
and it becomes true immediately when the corresponding side is released
(the last `Gate` clone, resp. the sole `Lever`). -/
theorem closed_flags_monotonic (s : SysState) (ops : List Op) :
    (Lever.gate_was_dropped s = true →
      Lever.gate_was_dropped (run s ops) = true) ∧
    (Gate.lever_was_dropped s = true →
      Gate.lever_was_dropped (run s ops) = true) ∧
    (s.gateCount = 1 → Lever.gate_was_dropped (step s Op.dropGate) = true) ∧
    Gate.lever_was_dropped (step s Op.dropLever) = true := by
  refine ⟨(run_dropped_mono ops s).1, (run_dropped_mono ops s).2, ?_, ?_⟩
  · intro h1
    rcases s with ⟨g, v, la, gc⟩
    simp_all [step, Lever.gate_was_dropped]
  · rcases s with ⟨g, v, la, gc⟩
    simp [step, Gate.lever_was_dropped]

/-- Witness for C8: dropping the last gate clone of a fresh pair flips
the flag, and it survives a later mutation attempt and a lever drop. -/
theorem closed_flags_monotonic_witness :
    Lever.gate_was_dropped
      (run (new Gateway.Raised) [Op.dropGate, Op.opLower, Op.dropLever]) = true :=
  (closed_flags_monotonic (step (new Gateway.Raised) Op.dropGate)
      [Op.opLower, Op.dropLever]).1
    ((closed_flags_monotonic (new Gateway.Raised) []).2.2.1 rfl)

/-- C9: `Display`/`FromStr` round-trip for `Gateway`: parsing the printed
form of either value returns it, and every other string fails with
`ParseGatewayError`. -/
theorem gateway_display_fromstr_roundtrip (g : Gateway) (s : String)
    (h1 : s ≠ "Raised") (h2 : s ≠ "Lowered") :
    Gateway.from_str (Gateway.to_string g) = Except.ok g ∧
    Gateway.from_str s = Except.error ParseGatewayError.mk := by
  constructor
  · cases g <;> simp [Gateway.from_str, Gateway.to_string]
  · simp [Gateway.from_str, h1, h2]

/-- Witness for C9 at `g = Lowered` and a concrete unparsable string. -/
theorem gateway_display_fromstr_roundtrip_witness :
    Gateway.from_str (Gateway.to_string Gateway.Lowered) =
      Except.ok Gateway.Lowered ∧
    Gateway.from_str "half-open" = Except.error ParseGatewayError.mk :=
  gateway_display_fromstr_roundtrip Gateway.Lowered "half-open"
    (by decide) (by decide)

/-- C10: `Lever::is_raised` and `Lever::is_lowered` are complementary on
the same shared state: while a gate clone is alive they return `Ok b` and
`Ok (not b)` for the same boolean `b`, and once the gate side has dropped
they both return `Err (BeforeGateDropped s)` carrying the identical
frozen state. -/
theorem lever_queries_complementary (s : SysState) :
    (Lever.gate_was_dropped s = false →
      ∃ b : Bool, Lever.is_raised s = Except.ok b ∧
        Lever.is_lowered s = Except.ok (!b)) ∧
    (Lever.gate_was_dropped s = true →
      Lever.is_raised s = Except.error (BeforeGateDropped.mk s.gateway) ∧
      Lever.is_lowered s = Except.error (BeforeGateDropped.mk s.gateway)) := by
  constructor
  · intro h
    refine ⟨s.gateway == Gateway.Raised, ?_, ?_⟩ <;>
      rcases s with ⟨g, v, la, gc⟩ <;> cases g <;>
        simp_all [Lever.is_raised, Lever.is_lowered]
  · intro h
    simp [Lever.is_raised, Lever.is_lowered, h]

/-- Witness for C10 on a live lowered pair. -/
theorem lever_queries_complementary_witness :
    ∃ b : Bool, Lever.is_raised new_lowered = Except.ok b ∧
      Lever.is_lowered new_lowered = Except.ok (!b) :=
  (lever_queries_complementary new_lowered).1 (by decide)
